import Mathlib

/-!
# GuardianSOS API — verification of the session-lifecycle core

Shallow embedding of `src/server.js` (the latest revision of the service,
with share tokens and contacts). The service keeps two in-memory maps:
`sessions : sosId -> session` and `tokenToSosId : shareToken -> sosId`,
and exposes four operations: start, update-location, end, read-by-token.

Modelling conventions:
* Instants are `Nat` milliseconds since the epoch. `new Date(x).toISOString()`
  followed by `Date.parse` is the identity on an instant, so a stored
  ISO-string timestamp is modelled by the instant it denotes. A time-valued
  request field is an `Option Nat` (absent or an instant); the JS falsiness
  of an empty-string timestamp is subsumed under absence.
* Coordinates are JS numbers on which the code performs no arithmetic;
  they are modelled as `Rat`, stored opaquely.
* Text-valued request fields are `Option String`; JS falsiness of such a
  field (`!displayName`) holds when it is absent or the empty string.
* JS `Map` is an association list with in-place replacement on `set`,
  mirroring `Map.prototype.set` semantics (insertion order kept, value
  replaced when the key exists); lookups see exactly `Map.prototype.get`.
* The JSON body of a response is a list of (key, value) pairs in the order
  the object literal lists them, so that presence/absence of a field
  (claim C2's subject) is directly expressible. The SMS message text is
  not modelled; the dispatch event (which recipients, if any) is.
-/

namespace GuardianSOS

/-- JS falsiness of an optional string request field: absent or `""`. -/
def falsyStr : Option String → Bool
  | none => true
  | some s => s = ""

/-- `const LIVE_LINK_TTL_MS = 1000 * 60 * 60 * 6` (server.js line 21). -/
def LIVE_LINK_TTL_MS : Nat := 1000 * 60 * 60 * 6

/-- A location record `{ latitude, longitude, timestamp }`. The update route
builds it from the raw body fields, so either coordinate may be absent. -/
structure Location where
  latitude : Option Rat
  longitude : Option Rat
  timestamp : Nat
deriving DecidableEq, Repr

/-- A normalized contact `{ name?, phone }` (phone trimmed and non-empty). -/
structure Contact where
  name : Option String
  phone : String
deriving DecidableEq, Repr

/-- The session record stored in `sessions` (server.js lines 78-90). -/
structure Session where
  sosId : String
  displayName : String
  status : String
  startedAt : Nat
  lastLocation : Option Location
  locationHistory : List Location
  endedAt : Option Nat
  endReason : Option String
  shareToken : String
  expiresAt : Nat
  contacts : List Contact
deriving DecidableEq, Repr

/-- Association-list lookup, mirroring `Map.prototype.get`. -/
def lookup {α : Type} : List (String × α) → String → Option α
  | [], _ => none
  | (k', v) :: rest, k => if k' = k then some v else lookup rest k

/-- Association-list insert, mirroring `Map.prototype.set`: replace the value
in place when the key exists, otherwise append the new binding. -/
def mapSet {α : Type} : List (String × α) → String → α → List (String × α)
  | [], k, v => [(k, v)]
  | (k', v') :: rest, k, v =>
    if k' = k then (k, v) :: rest else (k', v') :: mapSet rest k v

/-- The two in-memory maps (server.js lines 17-18). -/
structure Store where
  sessions : List (String × Session)
  tokenToSosId : List (String × String)
deriving DecidableEq, Repr

/-- The maps start empty. -/
def initStore : Store := ⟨[], []⟩

/-- A raw contact entry of the start body before normalization: `name` is
`some s` when the field holds a string `s`, `none` otherwise; same for
`phone`. A `null` entry of the array is modelled as `none` in the list. -/
structure RawContact where
  name : Option String
  phone : Option String
deriving DecidableEq, Repr

/-- JS `String.prototype.trim`: drop whitespace from both ends. -/
def trimStr (s : String) : String :=
  ⟨List.reverse (List.dropWhile Char.isWhitespace
     (List.reverse (List.dropWhile Char.isWhitespace s.data)))⟩

/-- `normalizedContacts` (server.js lines 64-76): a non-array `contacts`
yields `[]`; `null` entries and entries without a non-empty trimmed phone
string are discarded; names are trimmed when they are strings. -/
def normalizeContacts : Option (List (Option RawContact)) → List Contact
  | none => []
  | some cs => cs.filterMap fun c =>
      match c with
      | none => none
      | some c =>
        let phone := match c.phone with
          | some p => trimStr p
          | none => ""
        if phone = "" then none
        else some { name := c.name.map trimStr, phone := phone }

/-- Body of `POST /api/sos/start`. -/
structure StartReq where
  displayName : Option String
  latitude : Option Rat
  longitude : Option Rat
  startedAt : Option Nat
  contacts : Option (List (Option RawContact))
deriving DecidableEq, Repr

/-- Outcome of the start route: 400, or 200 with `{ sosId, shareToken }`. -/
inductive StartResult
  | badRequest
  | ok (sosId shareToken : String)
deriving DecidableEq, Repr

/-- What a start call produces: the HTTP result, the store afterwards, and
the SMS dispatch event (`some recipients` iff a broadcast was fired). -/
structure StartOut where
  result : StartResult
  store : Store
  smsRecipients : Option (List String)
deriving DecidableEq, Repr

/-- The initial location record (server.js lines 58-61): built only when
both coordinates are non-null (`!= null`), stamped with the normalized
`startedAt` instant. -/
def startLocation (req : StartReq) (timestamp : Nat) : Option Location :=
  match req.latitude, req.longitude with
  | some la, some lo => some ⟨some la, some lo, timestamp⟩
  | _, _ => none

/-- The session record a successful start persists (server.js lines 78-90).
`timestamp` is the normalized `startedAt` instant; `now` is `Date.now()`. -/
def startSession (req : StartReq) (sosId shareToken : String)
    (now timestamp : Nat) : Session :=
  { sosId := sosId
    displayName := (req.displayName).getD ""
    status := "active"
    startedAt := timestamp
    lastLocation := startLocation req timestamp
    locationHistory := (startLocation req timestamp).toList
    endedAt := none
    endReason := none
    shareToken := shareToken
    expiresAt := now + LIVE_LINK_TTL_MS
    contacts := normalizeContacts req.contacts }

/-- `POST /api/sos/start` (server.js lines 44-129). The freshly generated
`uuidv4()` session id and `generateShareToken()` token are inputs from the
random generator, as is `Date.now()`. Rejects when `displayName` or
`startedAt` is falsy, before touching the store; otherwise persists the
session and the token-index entry, and fires the broadcast iff there is at
least one valid contact phone. -/
def startSOS (req : StartReq) (sosId shareToken : String) (now : Nat)
    (st : Store) : StartOut :=
  if falsyStr req.displayName then ⟨.badRequest, st, none⟩
  else match req.startedAt with
  | none => ⟨.badRequest, st, none⟩
  | some timestamp =>
    let session := startSession req sosId shareToken now timestamp
    let st' : Store :=
      ⟨mapSet st.sessions sosId session,
       mapSet st.tokenToSosId shareToken sosId⟩
    let recipientPhones := (normalizeContacts req.contacts).map Contact.phone
    ⟨.ok sosId shareToken, st',
     if recipientPhones = [] then none else some recipientPhones⟩

/-- Outcome of the update and end routes. -/
inductive OpResult
  | badRequest
  | notFound
  | success
deriving DecidableEq, Repr

/-- Body of `POST /api/sos/update`. -/
structure UpdReq where
  sosId : Option String
  latitude : Option Rat
  longitude : Option Rat
  updatedAt : Option Nat
deriving DecidableEq, Repr

/-- The location record an update appends (server.js lines 140-144):
the raw body coordinates, not validated and possibly absent, with
timestamp `updatedAt` or, when falsy, now. -/
def updLocation (req : UpdReq) (now : Nat) : Location :=
  ⟨req.latitude, req.longitude, (req.updatedAt).getD now⟩

/-- The mutation a successful update applies to the looked-up session
(server.js lines 146-147): replace `lastLocation`, append to
`locationHistory`, touch nothing else. -/
def updSession (session : Session) (req : UpdReq) (now : Nat) : Session :=
  { session with
    lastLocation := some (updLocation req now)
    locationHistory := session.locationHistory ++ [updLocation req now] }

/-- `POST /api/sos/update` (server.js lines 132-152): 400 on falsy `sosId`,
404 on unknown session; otherwise applies `updSession`. -/
def updateSOS (req : UpdReq) (now : Nat) (st : Store) : OpResult × Store :=
  if falsyStr req.sosId then (.badRequest, st)
  else
    let i := (req.sosId).getD ""
    match lookup st.sessions i with
    | none => (.notFound, st)
    | some session =>
      (.success, { st with sessions := mapSet st.sessions i (updSession session req now) })

/-- Body of `POST /api/sos/end`. -/
structure EndReq where
  sosId : Option String
  endedAt : Option Nat
  reason : Option String
deriving DecidableEq, Repr

/-- `reason || "unknown"` (server.js line 164): JS `||` takes the fallback
on a falsy left operand, so an absent reason and an empty-string reason
both become `"unknown"`. -/
def endReasonOf : Option String → String
  | none => "unknown"
  | some r => if r = "" then "unknown" else r

/-- The mutation the end route applies to the looked-up session
(server.js lines 163-167): status `"ended"`, `endReason` from
`reason || "unknown"`, `endedAt` from the supplied instant or now.
No check that the session is still active. -/
def endSession (session : Session) (req : EndReq) (now : Nat) : Session :=
  { session with
    status := "ended"
    endReason := some (endReasonOf req.reason)
    endedAt := some ((req.endedAt).getD now) }

/-- `POST /api/sos/end` (server.js lines 155-172): 400 on falsy `sosId`,
404 on unknown session; otherwise applies `endSession`. -/
def endSOS (req : EndReq) (now : Nat) (st : Store) : OpResult × Store :=
  if falsyStr req.sosId then (.badRequest, st)
  else
    let i := (req.sosId).getD ""
    match lookup st.sessions i with
    | none => (.notFound, st)
    | some session =>
      (.success, { st with sessions := mapSet st.sessions i (endSession session req now) })

/-- A JSON field value of a session snapshot; the constructors cover the
types the session record's fields carry. -/
inductive FieldVal
  | vStr (s : String)
  | vNat (n : Nat)
  | vOptNat (n : Option Nat)
  | vOptStr (s : Option String)
  | vOptLoc (l : Option Location)
  | vLocs (ls : List Location)
  | vContacts (cs : List Contact)
deriving DecidableEq, Repr

/-- The session record as the ordered JSON object the code builds
(server.js lines 78-90). -/
def sessionFields (s : Session) : List (String × FieldVal) :=
  [("sosId", .vStr s.sosId),
   ("displayName", .vStr s.displayName),
   ("status", .vStr s.status),
   ("startedAt", .vNat s.startedAt),
   ("lastLocation", .vOptLoc s.lastLocation),
   ("locationHistory", .vLocs s.locationHistory),
   ("endedAt", .vOptNat s.endedAt),
   ("endReason", .vOptStr s.endReason),
   ("shareToken", .vStr s.shareToken),
   ("expiresAt", .vNat s.expiresAt),
   ("contacts", .vContacts s.contacts)]

/-- `const { shareToken, contacts, ...publicSession } = session`
(server.js line 199): the rest-spread keeps every field except the two
destructured ones. -/
def publicSessionFields (s : Session) : List (String × FieldVal) :=
  (sessionFields s).filter fun p => p.1 ≠ "shareToken" ∧ p.1 ≠ "contacts"

/-- Outcome of `GET /api/live/token/:token`: 404 for an unknown token, 404
for a resolved token whose session is missing, 410 for an expired link,
200 with the public snapshot. -/
inductive ReadResult
  | linkNotFound
  | sosNotFound
  | expired
  | ok (body : List (String × FieldVal))
deriving DecidableEq, Repr

/-- `GET /api/live/token/:token` (server.js lines 178-201). The expiry
guard is `if (expiry && now > expiry)`: `expiry` is `Date.parse(expiresAt)`,
falsy exactly when that instant is 0. -/
def readByToken (token : String) (now : Nat) (st : Store) : ReadResult :=
  match lookup st.tokenToSosId token with
  | none => .linkNotFound
  | some sosId =>
    match lookup st.sessions sosId with
    | none => .sosNotFound
    | some session =>
      if session.expiresAt ≠ 0 ∧ now > session.expiresAt then .expired
      else .ok (publicSessionFields session)

/-- One API call, with the nondeterministic inputs (generated ids, clock)
made explicit. -/
inductive Op
  | start (req : StartReq) (sosId shareToken : String) (now : Nat)
  | update (req : UpdReq) (now : Nat)
  | stop (req : EndReq) (now : Nat)
  | read (token : String) (now : Nat)
deriving DecidableEq, Repr

/-- The store after one call. Reads do not mutate. -/
def stepOp (st : Store) : Op → Store
  | .start req sosId shareToken now => (startSOS req sosId shareToken now st).store
  | .update req now => (updateSOS req now st).2
  | .stop req now => (endSOS req now st).2
  | .read _ _ => st

/-- The store after a sequence of calls. -/
def runOps (st : Store) (ops : List Op) : Store := ops.foldl stepOp st

/-! ## Map lemmas -/

theorem lookup_mapSet_self {α : Type} (m : List (String × α)) (k : String)
    (v : α) : lookup (mapSet m k v) k = some v := by
  induction m with
  | nil => simp [mapSet, lookup]
  | cons p rest ih =>
    obtain ⟨k0, v0⟩ := p
    by_cases h0 : k0 = k
    · subst h0; simp [mapSet, lookup]
    · simp [mapSet, lookup, h0, ih]

theorem lookup_mapSet_ne {α : Type} (m : List (String × α)) (k : String)
    (v : α) (k' : String) (h : k ≠ k') :
    lookup (mapSet m k v) k' = lookup m k' := by
  induction m with
  | nil => simp [mapSet, lookup, h]
  | cons p rest ih =>
    obtain ⟨k0, v0⟩ := p
    by_cases h0 : k0 = k
    · subst h0; simp [mapSet, lookup, h]
    · simp [mapSet, lookup, h0, ih]

theorem lookup_mapSet_isSome {α : Type} (m : List (String × α)) (k : String)
    (v : α) (k' : String) (h : (lookup m k').isSome = true) :
    (lookup (mapSet m k v) k').isSome = true := by
  by_cases hk : k = k'
  · subst hk; simp [lookup_mapSet_self]
  · rw [lookup_mapSet_ne m k v k' hk]; exact h

/-! ## Shape lemmas for the operations -/

/-- A start call with falsy display name or missing start timestamp is a
pure rejection. -/
theorem startSOS_reject (req : StartReq) (sosId shareToken : String)
    (now : Nat) (st : Store)
    (h : falsyStr req.displayName = true ∨ req.startedAt = none) :
    startSOS req sosId shareToken now st = ⟨.badRequest, st, none⟩ := by
  rcases h with h | h
  · simp [startSOS, h]
  · by_cases hd : falsyStr req.displayName <;> simp [startSOS, hd, h]

/-- A start call with truthy display name and a start timestamp persists
`startSession` under the fresh id, indexes the token, reports both ids,
and dispatches to the valid contact phones when there are any. -/
theorem startSOS_ok (req : StartReq) (sosId shareToken : String)
    (now : Nat) (st : Store) (timestamp : Nat)
    (hd : falsyStr req.displayName = false)
    (ht : req.startedAt = some timestamp) :
    startSOS req sosId shareToken now st =
      ⟨.ok sosId shareToken,
       ⟨mapSet st.sessions sosId
          (startSession req sosId shareToken now timestamp),
        mapSet st.tokenToSosId shareToken sosId⟩,
       if (normalizeContacts req.contacts).map Contact.phone = [] then none
       else some ((normalizeContacts req.contacts).map Contact.phone)⟩ := by
  simp [startSOS, hd, ht]

/-- The result of a start call determines whether it was the rejecting or
the persisting branch, and a success reports exactly the generated ids. -/
theorem startSOS_result_ok (req : StartReq) (sosId shareToken : String)
    (now : Nat) (st : Store) (a b : String)
    (h : (startSOS req sosId shareToken now st).result = .ok a b) :
    a = sosId ∧ b = shareToken ∧ falsyStr req.displayName = false ∧
      ∃ timestamp, req.startedAt = some timestamp := by
  by_cases hd : falsyStr req.displayName
  · rw [startSOS_reject req sosId shareToken now st (Or.inl hd)] at h
    exact absurd h (by simp)
  · cases ht : req.startedAt with
    | none =>
      rw [startSOS_reject req sosId shareToken now st (Or.inr ht)] at h
      exact absurd h (by simp)
    | some t =>
      rw [startSOS_ok req sosId shareToken now st t (by simpa using hd) ht]
        at h
      cases h
      exact ⟨rfl, rfl, by simpa using hd, t, rfl⟩

/-- An update addressed to an existing session succeeds and stores exactly
the `updSession` mutation under that id. -/
theorem updateSOS_found (req : UpdReq) (now : Nat) (st : Store) (i : String)
    (s : Session) (hi : req.sosId = some i) (hne : i ≠ "")
    (hs : lookup st.sessions i = some s) :
    updateSOS req now st =
      (.success,
       { st with sessions := mapSet st.sessions i (updSession s req now) }) := by
  simp [updateSOS, hi, hs, falsyStr, hne]

/-- An end addressed to an existing session succeeds and stores exactly
the `endSession` mutation under that id. -/
theorem endSOS_found (req : EndReq) (now : Nat) (st : Store) (i : String)
    (s : Session) (hi : req.sosId = some i) (hne : i ≠ "")
    (hs : lookup st.sessions i = some s) :
    endSOS req now st =
      (.success,
       { st with sessions := mapSet st.sessions i (endSession s req now) }) := by
  simp [endSOS, hi, hs, falsyStr, hne]

/-- The store a start call leaves behind: unchanged, or the two-map insert
of a fresh session. -/
theorem startSOS_store_cases (req : StartReq) (sosId shareToken : String)
    (now : Nat) (st : Store) :
    (startSOS req sosId shareToken now st).store = st ∨
    ∃ timestamp, req.startedAt = some timestamp ∧
      (startSOS req sosId shareToken now st).store =
        ⟨mapSet st.sessions sosId
           (startSession req sosId shareToken now timestamp),
         mapSet st.tokenToSosId shareToken sosId⟩ := by
  by_cases hd : falsyStr req.displayName
  · left; rw [startSOS_reject req sosId shareToken now st (Or.inl hd)]
  · cases ht : req.startedAt with
    | none => left; rw [startSOS_reject req sosId shareToken now st (Or.inr ht)]
    | some t =>
      right
      exact ⟨t, rfl,
        by rw [startSOS_ok req sosId shareToken now st t (by simpa using hd) ht]⟩

/-- The store an update call leaves behind: unchanged, or one existing
session replaced by its `updSession` mutation. -/
theorem updateSOS_store_cases (req : UpdReq) (now : Nat) (st : Store) :
    (updateSOS req now st).2 = st ∨
    ∃ i s, req.sosId = some i ∧ lookup st.sessions i = some s ∧
      (updateSOS req now st).2 =
        { st with sessions := mapSet st.sessions i (updSession s req now) } := by
  by_cases hf : falsyStr req.sosId
  · left; simp [updateSOS, hf]
  · cases hi : req.sosId with
    | none => simp [falsyStr, hi] at hf
    | some i =>
      have hf' : falsyStr (some i) = false := by rw [← hi]; simpa using hf
      cases hs : lookup st.sessions i with
      | none => left; simp [updateSOS, hf', hi, hs]
      | some s => right; exact ⟨i, s, rfl, hs, by simp [updateSOS, hf', hi, hs]⟩

/-- The store an end call leaves behind: unchanged, or one existing
session replaced by its `endSession` mutation. -/
theorem endSOS_store_cases (req : EndReq) (now : Nat) (st : Store) :
    (endSOS req now st).2 = st ∨
    ∃ i s, req.sosId = some i ∧ lookup st.sessions i = some s ∧
      (endSOS req now st).2 =
        { st with sessions := mapSet st.sessions i (endSession s req now) } := by
  by_cases hf : falsyStr req.sosId
  · left; simp [endSOS, hf]
  · cases hi : req.sosId with
    | none => simp [falsyStr, hi] at hf
    | some i =>
      have hf' : falsyStr (some i) = false := by rw [← hi]; simpa using hf
      cases hs : lookup st.sessions i with
      | none => left; simp [endSOS, hf', hi, hs]
      | some s => right; exact ⟨i, s, rfl, hs, by simp [endSOS, hf', hi, hs]⟩

/-- Where a lookup in an updated map can land. -/
theorem lookup_mapSet_cases {α : Type} (m : List (String × α)) (k : String)
    (v : α) (k' : String) :
    (k = k' ∧ lookup (mapSet m k v) k' = some v) ∨
    (k ≠ k' ∧ lookup (mapSet m k v) k' = lookup m k') := by
  by_cases hk : k = k'
  · subst hk; exact Or.inl ⟨rfl, lookup_mapSet_self _ _ _⟩
  · exact Or.inr ⟨hk, lookup_mapSet_ne m k v k' hk⟩

/-! ## Reachability invariants -/

/-- Every token-index entry points at a stored session. -/
def TokenInv (st : Store) : Prop :=
  ∀ tok i, lookup st.tokenToSosId tok = some i →
    (lookup st.sessions i).isSome = true

/-- Every stored session has a positive expiry instant. -/
def TTLPos (st : Store) : Prop :=
  ∀ i s, lookup st.sessions i = some s → 0 < s.expiresAt

theorem tokenInv_init : TokenInv initStore := by
  intro tok i h
  simp [initStore, lookup] at h

theorem ttlPos_init : TTLPos initStore := by
  intro i s h
  simp [initStore, lookup] at h

/-- No operation shrinks the domain of the session map (sessions are never
deleted). -/
theorem stepOp_sessions_isSome (st : Store) (op : Op) (i : String)
    (h : (lookup st.sessions i).isSome = true) :
    (lookup (stepOp st op).sessions i).isSome = true := by
  cases op with
  | start req sosId shareToken now =>
    rcases startSOS_store_cases req sosId shareToken now st with hc | ⟨t, _, hc⟩
    · simp only [stepOp]; rw [hc]; exact h
    · simp only [stepOp]; rw [hc]; exact lookup_mapSet_isSome _ _ _ _ h
  | update req now =>
    rcases updateSOS_store_cases req now st with hc | ⟨j, s, _, _, hc⟩
    · simp only [stepOp]; rw [hc]; exact h
    · simp only [stepOp]; rw [hc]; exact lookup_mapSet_isSome _ _ _ _ h
  | stop req now =>
    rcases endSOS_store_cases req now st with hc | ⟨j, s, _, _, hc⟩
    · simp only [stepOp]; rw [hc]; exact h
    · simp only [stepOp]; rw [hc]; exact lookup_mapSet_isSome _ _ _ _ h
  | read token now => exact h

theorem stepOp_tokenInv (st : Store) (op : Op) (h : TokenInv st) :
    TokenInv (stepOp st op) := by
  cases op with
  | start req sosId shareToken now =>
    rcases startSOS_store_cases req sosId shareToken now st with hc | ⟨t, _, hc⟩
    · intro tok i htok
      simp only [stepOp] at htok ⊢
      rw [hc] at htok ⊢
      exact h tok i htok
    · intro tok i htok
      simp only [stepOp] at htok ⊢
      rw [hc] at htok ⊢
      rcases lookup_mapSet_cases st.tokenToSosId shareToken sosId tok with
        ⟨_, he⟩ | ⟨_, he⟩
      · rw [he] at htok
        cases htok
        rw [lookup_mapSet_self]
        rfl
      · rw [he] at htok
        exact lookup_mapSet_isSome _ _ _ _ (h tok i htok)
  | update req now =>
    rcases updateSOS_store_cases req now st with hc | ⟨j, s, _, _, hc⟩
    · intro tok i htok
      simp only [stepOp] at htok ⊢
      rw [hc] at htok ⊢
      exact h tok i htok
    · intro tok i htok
      simp only [stepOp] at htok ⊢
      rw [hc] at htok ⊢
      exact lookup_mapSet_isSome _ _ _ _ (h tok i htok)
  | stop req now =>
    rcases endSOS_store_cases req now st with hc | ⟨j, s, _, _, hc⟩
    · intro tok i htok
      simp only [stepOp] at htok ⊢
      rw [hc] at htok ⊢
      exact h tok i htok
    · intro tok i htok
      simp only [stepOp] at htok ⊢
      rw [hc] at htok ⊢
      exact lookup_mapSet_isSome _ _ _ _ (h tok i htok)
  | read token now => exact h

theorem stepOp_ttlPos (st : Store) (op : Op) (h : TTLPos st) :
    TTLPos (stepOp st op) := by
  cases op with
  | start req sosId shareToken now =>
    rcases startSOS_store_cases req sosId shareToken now st with hc | ⟨t, _, hc⟩
    · intro i s hs
      simp only [stepOp] at hs
      rw [hc] at hs
      exact h i s hs
    · intro i s hs
      simp only [stepOp] at hs
      rw [hc] at hs
      rcases lookup_mapSet_cases st.sessions sosId
          (startSession req sosId shareToken now t) i with ⟨_, he⟩ | ⟨_, he⟩
      · rw [he] at hs
        cases hs
        simp [startSession, LIVE_LINK_TTL_MS]
      · rw [he] at hs
        exact h i s hs
  | update req now =>
    rcases updateSOS_store_cases req now st with hc | ⟨j, s0, _, hs0, hc⟩
    · intro i s hs
      simp only [stepOp] at hs
      rw [hc] at hs
      exact h i s hs
    · intro i s hs
      simp only [stepOp] at hs
      rw [hc] at hs
      rcases lookup_mapSet_cases st.sessions j (updSession s0 req now) i with
        ⟨_, he⟩ | ⟨_, he⟩
      · rw [he] at hs
        cases hs
        exact h j s0 hs0
      · rw [he] at hs
        exact h i s hs
  | stop req now =>
    rcases endSOS_store_cases req now st with hc | ⟨j, s0, _, hs0, hc⟩
    · intro i s hs
      simp only [stepOp] at hs
      rw [hc] at hs
      exact h i s hs
    · intro i s hs
      simp only [stepOp] at hs
      rw [hc] at hs
      rcases lookup_mapSet_cases st.sessions j (endSession s0 req now) i with
        ⟨_, he⟩ | ⟨_, he⟩
      · rw [he] at hs
        cases hs
        exact h j s0 hs0
      · rw [he] at hs
        exact h i s hs
  | read token now => exact h

theorem runOps_inv (ops : List Op) :
    ∀ st : Store, TokenInv st → TTLPos st →
      TokenInv (runOps st ops) ∧ TTLPos (runOps st ops) := by
  induction ops with
  | nil => exact fun st h1 h2 => ⟨h1, h2⟩
  | cons op rest ih =>
    intro st h1 h2
    exact ih (stepOp st op) (stepOp_tokenInv st op h1) (stepOp_ttlPos st op h2)

/-- Token-index soundness holds in every reachable store. -/
theorem reachable_tokenInv (ops : List Op) : TokenInv (runOps initStore ops) :=
  (runOps_inv ops initStore tokenInv_init ttlPos_init).1

/-- Positive expiry holds in every reachable store. -/
theorem reachable_ttlPos (ops : List Op) : TTLPos (runOps initStore ops) :=
  (runOps_inv ops initStore tokenInv_init ttlPos_init).2

/-! ## Sequences of update calls -/

/-- One update call: its body and its clock reading. -/
structure UpdCall where
  req : UpdReq
  now : Nat
deriving DecidableEq, Repr

/-- Run a sequence of update calls, threading the store. -/
def runUpdates (st : Store) (us : List UpdCall) : Store :=
  us.foldl (fun st u => (updateSOS u.req u.now st).2) st

/-- The location record a call appends when it succeeds. -/
def updCallLoc (u : UpdCall) : Location := updLocation u.req u.now

/-- The calls of a sequence addressed to session `i`. -/
def updatesFor (i : String) (us : List UpdCall) : List UpdCall :=
  us.filter fun u => u.req.sosId = some i

/-- The HTTP results of the calls addressed to `i`, in call order, when
the whole sequence runs from `st`. -/
def resultsFor (i : String) (st : Store) : List UpdCall → List OpResult
  | [] => []
  | u :: us =>
    (if u.req.sosId = some i then [(updateSOS u.req u.now st).1] else []) ++
      resultsFor i (updateSOS u.req u.now st).2 us

/-- Running a sequence of update calls from a store holding session `i`:
every call addressed to `i` succeeds, and the session's history afterwards
is its history before, extended by the appended records of exactly those
calls, in call order. -/
theorem runUpdates_history (i : String) (hne : i ≠ "") (us : List UpdCall) :
    ∀ (st : Store) (s : Session), lookup st.sessions i = some s →
      (∃ s', lookup (runUpdates st us).sessions i = some s' ∧
        s'.locationHistory =
          s.locationHistory ++ (updatesFor i us).map updCallLoc) ∧
      resultsFor i st us =
        (updatesFor i us).map fun _ => OpResult.success := by
  induction us with
  | nil =>
    intro st s hs
    exact ⟨⟨s, hs, by simp [updatesFor, runUpdates]⟩,
      by simp [resultsFor, updatesFor]⟩
  | cons u us ih =>
    intro st s hs
    have hrun : runUpdates st (u :: us) =
        runUpdates (updateSOS u.req u.now st).2 us := rfl
    by_cases hu : u.req.sosId = some i
    · have hstep := updateSOS_found u.req u.now st i s hu hne hs
      have hlook : lookup ((updateSOS u.req u.now st).2).sessions i =
          some (updSession s u.req u.now) := by
        rw [hstep]
        exact lookup_mapSet_self _ _ _
      obtain ⟨⟨s', hs', hh⟩, hr⟩ := ih (updateSOS u.req u.now st).2 _ hlook
      refine ⟨⟨s', by rw [hrun]; exact hs', ?_⟩, ?_⟩
      · rw [hh]
        simp [updatesFor, hu, updSession, updCallLoc]
      · have hres : (updateSOS u.req u.now st).1 = OpResult.success := by
          rw [hstep]
        simp [resultsFor, hu, hres, updatesFor, hr]
    · have hpres : lookup ((updateSOS u.req u.now st).2).sessions i = some s := by
        rcases updateSOS_store_cases u.req u.now st with hc | ⟨j, s0, hj, hs0, hc⟩
        · rw [hc]; exact hs
        · have hji : j ≠ i := fun he => hu (he ▸ hj)
          rw [hc, lookup_mapSet_ne _ _ _ _ hji]
          exact hs
      obtain ⟨⟨s', hs', hh⟩, hr⟩ := ih (updateSOS u.req u.now st).2 _ hpres
      refine ⟨⟨s', by rw [hrun]; exact hs', ?_⟩, ?_⟩
      · rw [hh]
        simp [updatesFor, hu]
      · simp [resultsFor, hu, updatesFor, hr]

/-! ## Issued identifiers -/

/-- The generator outputs consumed by the start calls of a sequence, in
order, whether or not the call succeeds. -/
def startGenPairs : List Op → List (String × String)
  | [] => []
  | .start _ sosId shareToken _ :: rest => (sosId, shareToken) :: startGenPairs rest
  | .update _ _ :: rest => startGenPairs rest
  | .stop _ _ :: rest => startGenPairs rest
  | .read _ _ :: rest => startGenPairs rest

/-- The `(sosId, shareToken)` pairs returned by the successful start calls
of a sequence run from `st`, in order. -/
def issuedPairs (st : Store) : List Op → List (String × String)
  | [] => []
  | op :: rest =>
    (match op with
     | .start req sosId shareToken now =>
       match (startSOS req sosId shareToken now st).result with
       | .ok a b => [(a, b)]
       | .badRequest => []
     | _ => []) ++ issuedPairs (stepOp st op) rest

/-- The issued pairs of a run are among the generator outputs. -/
theorem issuedPairs_sublist (ops : List Op) :
    ∀ st : Store, (issuedPairs st ops).Sublist (startGenPairs ops) := by
  induction ops with
  | nil => intro st; simp [issuedPairs, startGenPairs]
  | cons op rest ih =>
    intro st
    cases op with
    | start req sosId shareToken now =>
      cases hr : (startSOS req sosId shareToken now st).result with
      | badRequest =>
        simpa [issuedPairs, hr, startGenPairs] using (ih _).cons _
      | ok a b =>
        obtain ⟨ha, hb, -, -⟩ := startSOS_result_ok req sosId shareToken now st a b hr
        subst ha; subst hb
        simpa [issuedPairs, hr, startGenPairs] using (ih _).cons₂ (a, b)
    | update req now => simpa [issuedPairs, startGenPairs] using ih _
    | stop req now => simpa [issuedPairs, startGenPairs] using ih _
    | read token now => simpa [issuedPairs, startGenPairs] using ih _

/-! ## Expiry preservation -/

/-- An update call leaves every session's `expiresAt` as it was. -/
theorem updateSOS_expiresAt (req : UpdReq) (now : Nat) (st : Store)
    (j : String) :
    (lookup ((updateSOS req now st).2).sessions j).map Session.expiresAt =
      (lookup st.sessions j).map Session.expiresAt := by
  rcases updateSOS_store_cases req now st with hc | ⟨i, s, hi, hs, hc⟩
  · rw [hc]
  · simp only [hc]
    rcases lookup_mapSet_cases st.sessions i (updSession s req now) j with
      ⟨he, hl⟩ | ⟨he, hl⟩
    · subst he
      rw [hl, hs]
      rfl
    · rw [hl]

/-- An end call leaves every session's `expiresAt` as it was. -/
theorem endSOS_expiresAt (req : EndReq) (now : Nat) (st : Store)
    (j : String) :
    (lookup ((endSOS req now st).2).sessions j).map Session.expiresAt =
      (lookup st.sessions j).map Session.expiresAt := by
  rcases endSOS_store_cases req now st with hc | ⟨i, s, hi, hs, hc⟩
  · rw [hc]
  · simp only [hc]
    rcases lookup_mapSet_cases st.sessions i (endSession s req now) j with
      ⟨he, hl⟩ | ⟨he, hl⟩
    · subst he
      rw [hl, hs]
      rfl
    · rw [hl]

/-- Under token-index soundness the read route cannot take its
session-missing branch. -/
theorem readByToken_no_sosNotFound (st : Store) (h : TokenInv st)
    (token : String) (now : Nat) :
    readByToken token now st ≠ .sosNotFound := by
  cases htok : lookup st.tokenToSosId token with
  | none => simp [readByToken, htok]
  | some i =>
    have hsome := h token i htok
    cases hs : lookup st.sessions i with
    | none => rw [hs] at hsome; simp at hsome
    | some s =>
      by_cases hx : s.expiresAt ≠ 0 ∧ now > s.expiresAt <;>
        simp [readByToken, htok, hs, hx]

/-- `reason || "unknown"` restated through the plain value of the field. -/
theorem endReasonOf_eq (reason : Option String) :
    endReasonOf reason =
      if reason.getD "" = "" then "unknown" else reason.getD "" := by
  cases reason with
  | none => rfl
  | some r => by_cases hr : r = "" <;> simp [endReasonOf, hr]

/-! ## Claims -/

/-- C5: A start request with a missing (JS-falsy) display name or a missing
start timestamp is rejected with the 400 validation error before any
mutation: the session store and the token index are unchanged and no
notification is dispatched. -/
theorem C5_start_rejected_before_mutation (req : StartReq)
    (sosId shareToken : String) (now : Nat) (st : Store)
    (h : falsyStr req.displayName = true ∨ req.startedAt = none) :
    (startSOS req sosId shareToken now st).result = .badRequest ∧
    (startSOS req sosId shareToken now st).store.sessions = st.sessions ∧
    (startSOS req sosId shareToken now st).store.tokenToSosId =
      st.tokenToSosId ∧
    (startSOS req sosId shareToken now st).smsRecipients = none := by
  rw [startSOS_reject req sosId shareToken now st h]
  exact ⟨rfl, rfl, rfl, rfl⟩

/-- Witness for C5 at a concrete input: no display name supplied. -/
theorem C5_witness :
    (startSOS ⟨none, none, none, some 5, none⟩ "s1" "tok1" 7 initStore).result
        = .badRequest ∧
    (startSOS ⟨none, none, none, some 5, none⟩ "s1" "tok1" 7
        initStore).store.sessions = initStore.sessions ∧
    (startSOS ⟨none, none, none, some 5, none⟩ "s1" "tok1" 7
        initStore).store.tokenToSosId = initStore.tokenToSosId ∧
    (startSOS ⟨none, none, none, some 5, none⟩ "s1" "tok1" 7
        initStore).smsRecipients = none :=
  C5_start_rejected_before_mutation ⟨none, none, none, some 5, none⟩
    "s1" "tok1" 7 initStore (Or.inl (by decide))

/-- C6: A session created at clock reading `now` gets
`expiresAt = now + 1000*60*60*6` (six hours in milliseconds), and neither
an update call nor an end call ever changes any session's `expiresAt`. -/
theorem C6_expiresAt_fixed (req : StartReq) (sosId shareToken : String)
    (now timestamp : Nat) (st : Store)
    (hd : falsyStr req.displayName = false)
    (ht : req.startedAt = some timestamp) :
    (lookup (startSOS req sosId shareToken now st).store.sessions
        sosId).map Session.expiresAt = some (now + 1000 * 60 * 60 * 6) ∧
    (∀ (ureq : UpdReq) (unow : Nat) (st' : Store) (j : String),
      (lookup ((updateSOS ureq unow st').2).sessions j).map
          Session.expiresAt =
        (lookup st'.sessions j).map Session.expiresAt) ∧
    (∀ (ereq : EndReq) (enow : Nat) (st' : Store) (j : String),
      (lookup ((endSOS ereq enow st').2).sessions j).map Session.expiresAt =
        (lookup st'.sessions j).map Session.expiresAt) := by
  refine ⟨?_, updateSOS_expiresAt, endSOS_expiresAt⟩
  rw [startSOS_ok req sosId shareToken now st timestamp hd ht]
  show (lookup (mapSet st.sessions sosId
      (startSession req sosId shareToken now timestamp)) sosId).map
    Session.expiresAt = _
  rw [lookup_mapSet_self]
  rfl

/-- Witness for C6 at a concrete input. -/
theorem C6_witness :
    (lookup (startSOS ⟨some "Alice", none, none, some 1000, none⟩ "s1" "tok1"
        500 initStore).store.sessions "s1").map Session.expiresAt =
      some (500 + 1000 * 60 * 60 * 6) ∧
    (∀ (ureq : UpdReq) (unow : Nat) (st' : Store) (j : String),
      (lookup ((updateSOS ureq unow st').2).sessions j).map
          Session.expiresAt =
        (lookup st'.sessions j).map Session.expiresAt) ∧
    (∀ (ereq : EndReq) (enow : Nat) (st' : Store) (j : String),
      (lookup ((endSOS ereq enow st').2).sessions j).map Session.expiresAt =
        (lookup st'.sessions j).map Session.expiresAt) :=
  C6_expiresAt_fixed ⟨some "Alice", none, none, some 1000, none⟩ "s1" "tok1"
    500 1000 initStore (by decide) rfl

/-- C8: A successful update on an existing session changes only that
session's `lastLocation` and `locationHistory` (the stored record equals
the old one with exactly those two fields replaced, so `status` — even
`"ended"` — `sosId`, `displayName`, `startedAt`, `endedAt`, `endReason`,
`shareToken`, `expiresAt` and `contacts` are untouched), leaves every
other session's binding untouched, and leaves the token index untouched. -/
theorem C8_update_frame (st : Store) (i : String) (s : Session)
    (la lo : Option Rat) (upAt : Option Nat) (now : Nat)
    (hne : i ≠ "") (hs : lookup st.sessions i = some s) :
    (updateSOS ⟨some i, la, lo, upAt⟩ now st).1 = .success ∧
    lookup ((updateSOS ⟨some i, la, lo, upAt⟩ now st).2).sessions i =
      some { s with
        lastLocation := some ⟨la, lo, upAt.getD now⟩
        locationHistory := s.locationHistory ++ [⟨la, lo, upAt.getD now⟩] } ∧
    (∀ j, j ≠ i →
      lookup ((updateSOS ⟨some i, la, lo, upAt⟩ now st).2).sessions j =
        lookup st.sessions j) ∧
    ((updateSOS ⟨some i, la, lo, upAt⟩ now st).2).tokenToSosId =
      st.tokenToSosId := by
  have h := updateSOS_found ⟨some i, la, lo, upAt⟩ now st i s rfl hne hs
  refine ⟨by rw [h], ?_, ?_, by rw [h]⟩
  · rw [h]
    show lookup (mapSet st.sessions i _) i = _
    rw [lookup_mapSet_self]
    rfl
  · intro j hj
    rw [h]
    show lookup (mapSet st.sessions i _) j = _
    exact lookup_mapSet_ne _ _ _ _ fun he => hj he.symm

/-- Witness for C8 at a concrete input: update on an ended session. -/
theorem C8_witness :
    (updateSOS ⟨some "s1", some 2, some 3, some 40⟩ 50
        ⟨[("s1", ⟨"s1", "Alice", "ended", 0, none, [], some 9, some "done",
                  "tok1", 21600000, []⟩)], [("tok1", "s1")]⟩).1 = .success ∧
    lookup ((updateSOS ⟨some "s1", some 2, some 3, some 40⟩ 50
        ⟨[("s1", ⟨"s1", "Alice", "ended", 0, none, [], some 9, some "done",
                  "tok1", 21600000, []⟩)], [("tok1", "s1")]⟩).2).sessions
        "s1" =
      some { (⟨"s1", "Alice", "ended", 0, none, [], some 9, some "done",
              "tok1", 21600000, []⟩ : Session) with
        lastLocation := some ⟨some 2, some 3, (some 40).getD 50⟩
        locationHistory :=
          ([] : List Location) ++ [⟨some 2, some 3, (some 40).getD 50⟩] } ∧
    (∀ j, j ≠ "s1" →
      lookup ((updateSOS ⟨some "s1", some 2, some 3, some 40⟩ 50
          ⟨[("s1", ⟨"s1", "Alice", "ended", 0, none, [], some 9, some "done",
                    "tok1", 21600000, []⟩)], [("tok1", "s1")]⟩).2).sessions
          j =
        lookup [("s1", (⟨"s1", "Alice", "ended", 0, none, [], some 9,
          some "done", "tok1", 21600000, []⟩ : Session))] j) ∧
    ((updateSOS ⟨some "s1", some 2, some 3, some 40⟩ 50
        ⟨[("s1", ⟨"s1", "Alice", "ended", 0, none, [], some 9, some "done",
                  "tok1", 21600000, []⟩)], [("tok1", "s1")]⟩).2).tokenToSosId
      = [("tok1", "s1")] :=
  C8_update_frame
    ⟨[("s1", ⟨"s1", "Alice", "ended", 0, none, [], some 9, some "done",
              "tok1", 21600000, []⟩)], [("tok1", "s1")]⟩
    "s1" ⟨"s1", "Alice", "ended", 0, none, [], some 9, some "done", "tok1",
          21600000, []⟩
    (some 2) (some 3) (some 40) 50 (by decide) (by decide)

/-- C9: An update on an existing session whose latitude or longitude is
absent is still accepted: it returns success and appends a location record
carrying the absent coordinate values. -/
theorem C9_update_accepts_absent_coordinates (st : Store) (i : String)
    (s : Session) (la lo : Option Rat) (upAt : Option Nat) (now : Nat)
    (hne : i ≠ "") (hs : lookup st.sessions i = some s)
    (hmiss : la = none ∨ lo = none) :
    (updateSOS ⟨some i, la, lo, upAt⟩ now st).1 = .success ∧
    lookup ((updateSOS ⟨some i, la, lo, upAt⟩ now st).2).sessions i =
      some { s with
        lastLocation := some ⟨la, lo, upAt.getD now⟩
        locationHistory :=
          s.locationHistory ++ [⟨la, lo, upAt.getD now⟩] } := by
  have h := updateSOS_found ⟨some i, la, lo, upAt⟩ now st i s rfl hne hs
  refine ⟨by rw [h], ?_⟩
  rw [h]
  show lookup (mapSet st.sessions i _) i = _
  rw [lookup_mapSet_self]
  rfl

/-- Witness for C9 at a concrete input: both coordinates absent. -/
theorem C9_witness :
    (updateSOS ⟨some "s1", none, none, none⟩ 50
        ⟨[("s1", ⟨"s1", "Alice", "active", 0, none, [], none, none, "tok1",
                  21600000, []⟩)], [("tok1", "s1")]⟩).1 = .success ∧
    lookup ((updateSOS ⟨some "s1", none, none, none⟩ 50
        ⟨[("s1", ⟨"s1", "Alice", "active", 0, none, [], none, none, "tok1",
                  21600000, []⟩)], [("tok1", "s1")]⟩).2).sessions "s1" =
      some { (⟨"s1", "Alice", "active", 0, none, [], none, none, "tok1",
              21600000, []⟩ : Session) with
        lastLocation := some ⟨none, none, (none : Option Nat).getD 50⟩
        locationHistory :=
          ([] : List Location) ++ [⟨none, none, (none : Option Nat).getD 50⟩] } :=
  C9_update_accepts_absent_coordinates
    ⟨[("s1", ⟨"s1", "Alice", "active", 0, none, [], none, none, "tok1",
              21600000, []⟩)], [("tok1", "s1")]⟩
    "s1" ⟨"s1", "Alice", "active", 0, none, [], none, none, "tok1",
          21600000, []⟩
    none none none 50 (by decide) (by decide) (Or.inl rfl)

/-- C2: Whenever a read-by-token call succeeds, the returned snapshot
contains neither a `shareToken` field nor a `contacts` field. -/
theorem C2_snapshot_hides_secret_and_contacts (st : Store) (token : String)
    (now : Nat) (body : List (String × FieldVal))
    (h : readByToken token now st = .ok body) :
    "shareToken" ∉ body.map Prod.fst ∧ "contacts" ∉ body.map Prod.fst := by
  rcases htok : lookup st.tokenToSosId token with _ | i
  · simp [readByToken, htok] at h
  · rcases hs : lookup st.sessions i with _ | s
    · simp [readByToken, htok, hs] at h
    · by_cases hx : s.expiresAt ≠ 0 ∧ now > s.expiresAt
      · simp [readByToken, htok, hs, hx] at h
      · simp [readByToken, htok, hs, hx] at h
        subst h
        constructor <;> simp [publicSessionFields, sessionFields]

/-- Witness for C2 at a concrete input. -/
theorem C2_witness :
    "shareToken" ∉
      ((publicSessionFields ⟨"s1", "Alice", "active", 0, none, [], none,
          none, "tok1", 21600000, []⟩).map Prod.fst) ∧
    "contacts" ∉
      ((publicSessionFields ⟨"s1", "Alice", "active", 0, none, [], none,
          none, "tok1", 21600000, []⟩).map Prod.fst) :=
  C2_snapshot_hides_secret_and_contacts
    ⟨[("s1", ⟨"s1", "Alice", "active", 0, none, [], none, none, "tok1",
              21600000, []⟩)], [("tok1", "s1")]⟩
    "tok1" 5 _ (by decide)

/-- C3: In every reachable store, a read-by-token call yields: 404 when
the token is not in the index; 410 when the token resolves to a session
whose `expiresAt` has elapsed (`now > expiresAt`), with no condition on
the session's status; and the public snapshot otherwise. -/
theorem C3_read_by_token_statuses (ops : List Op) (token : String)
    (now : Nat) (i : String) (s : Session) :
    (lookup (runOps initStore ops).tokenToSosId token = none →
      readByToken token now (runOps initStore ops) = .linkNotFound) ∧
    (lookup (runOps initStore ops).tokenToSosId token = some i →
     lookup (runOps initStore ops).sessions i = some s →
      (now > s.expiresAt →
        readByToken token now (runOps initStore ops) = .expired) ∧
      (now ≤ s.expiresAt →
        readByToken token now (runOps initStore ops) =
          .ok (publicSessionFields s))) := by
  constructor
  · intro h
    simp [readByToken, h]
  · intro htok hs
    have hpos : 0 < s.expiresAt := reachable_ttlPos ops i s hs
    constructor
    · intro hgt
      have hx : s.expiresAt ≠ 0 ∧ now > s.expiresAt :=
        ⟨Nat.pos_iff_ne_zero.mp hpos, hgt⟩
      simp [readByToken, htok, hs, hx]
    · intro hle
      have hx : ¬(s.expiresAt ≠ 0 ∧ now > s.expiresAt) := by
        rintro ⟨-, hgt⟩
        exact absurd hgt (Nat.not_lt.mpr hle)
      simp [readByToken, htok, hs, hx]

/-- Witness for C3 at a concrete input: one started session, read after
its expiry (410) — the 404 clause is exercised with an unknown token. -/
theorem C3_witness :
    readByToken "nope" 5
      (runOps initStore
        [.start ⟨some "Alice", none, none, some 1000, none⟩ "s1" "tok1" 500])
      = .linkNotFound ∧
    readByToken "tok1" 99999999
      (runOps initStore
        [.start ⟨some "Alice", none, none, some 1000, none⟩ "s1" "tok1" 500])
      = .expired :=
  ⟨(C3_read_by_token_statuses
      [.start ⟨some "Alice", none, none, some 1000, none⟩ "s1" "tok1" 500]
      "nope" 5 "s1"
      (startSession ⟨some "Alice", none, none, some 1000, none⟩ "s1" "tok1"
        500 1000)).1 (by decide),
   ((C3_read_by_token_statuses
      [.start ⟨some "Alice", none, none, some 1000, none⟩ "s1" "tok1" 500]
      "tok1" 99999999 "s1"
      (startSession ⟨some "Alice", none, none, some 1000, none⟩ "s1" "tok1"
        500 1000)).2 (by decide) (by decide)).1 (by decide)⟩

/-- Counterexample to C7 as stated: the end operation does not set
`endReason` to every supplied reason. With the empty string supplied as
the reason (a value JS `||` treats as falsy), the call succeeds but
records `"unknown"`, not `""`. -/
theorem C7_counterexample :
    (endSOS ⟨some "s1", some 5, some ""⟩ 9
        ⟨[("s1", ⟨"s1", "Alice", "active", 0, none, [], none, none, "tok1",
                  21600000, []⟩)], [("tok1", "s1")]⟩).1 = OpResult.success ∧
    (lookup (endSOS ⟨some "s1", some 5, some ""⟩ 9
        ⟨[("s1", ⟨"s1", "Alice", "active", 0, none, [], none, none, "tok1",
                  21600000, []⟩)], [("tok1", "s1")]⟩).2.sessions "s1").map
        Session.endReason ≠ some (some "") ∧
    (lookup (endSOS ⟨some "s1", some 5, some ""⟩ 9
        ⟨[("s1", ⟨"s1", "Alice", "active", 0, none, [], none, none, "tok1",
                  21600000, []⟩)], [("tok1", "s1")]⟩).2.sessions "s1").map
        Session.endReason = some (some "unknown") := by
  refine ⟨by decide, by decide, by decide⟩

/-- C7 (amended): ending an existing session succeeds and sets status to
`"ended"`, `endedAt` to the supplied instant or, if absent, the current
time, and `endReason` to the supplied reason when it is a non-empty
string and `"unknown"` when it is absent or empty; ending an
already-ended session re-applies the mutation and succeeds again. -/
theorem C7_end_behavior (st : Store) (i : String) (s : Session)
    (endedAt : Option Nat) (reason : Option String) (now : Nat)
    (hne : i ≠ "") (hs : lookup st.sessions i = some s) :
    (endSOS ⟨some i, endedAt, reason⟩ now st).1 = .success ∧
    lookup ((endSOS ⟨some i, endedAt, reason⟩ now st).2).sessions i =
      some { s with
        status := "ended"
        endedAt := some (endedAt.getD now)
        endReason := some (if reason.getD "" = "" then "unknown"
                           else reason.getD "") } ∧
    (∀ (endedAt2 : Option Nat) (reason2 : Option String) (now2 : Nat),
      (endSOS ⟨some i, endedAt2, reason2⟩ now2
        ((endSOS ⟨some i, endedAt, reason⟩ now st).2)).1 = .success) := by
  have h := endSOS_found ⟨some i, endedAt, reason⟩ now st i s rfl hne hs
  have hlook2 : lookup ((endSOS ⟨some i, endedAt, reason⟩ now st).2).sessions
      i = some (endSession s ⟨some i, endedAt, reason⟩ now) := by
    rw [h]
    show lookup (mapSet st.sessions i _) i = _
    exact lookup_mapSet_self _ _ _
  refine ⟨by rw [h], ?_, ?_⟩
  · rw [hlook2, endSession]
    simp only [endReasonOf_eq]
  · intro endedAt2 reason2 now2
    rw [endSOS_found ⟨some i, endedAt2, reason2⟩ now2 _ i _ rfl hne hlook2]

/-- Witness for C7 (amended) at a concrete input: a supplied non-empty
reason is recorded verbatim. -/
theorem C7_witness :
    (endSOS ⟨some "s1", some 5, some "resolved"⟩ 9
        ⟨[("s1", ⟨"s1", "Alice", "active", 0, none, [], none, none, "tok1",
                  21600000, []⟩)], [("tok1", "s1")]⟩).1 = .success ∧
    lookup ((endSOS ⟨some "s1", some 5, some "resolved"⟩ 9
        ⟨[("s1", ⟨"s1", "Alice", "active", 0, none, [], none, none, "tok1",
                  21600000, []⟩)], [("tok1", "s1")]⟩).2).sessions "s1" =
      some { (⟨"s1", "Alice", "active", 0, none, [], none, none, "tok1",
              21600000, []⟩ : Session) with
        status := "ended"
        endedAt := some ((some 5).getD 9)
        endReason := some (if (some "resolved").getD "" = "" then "unknown"
                           else (some "resolved").getD "") } ∧
    (∀ (endedAt2 : Option Nat) (reason2 : Option String) (now2 : Nat),
      (endSOS ⟨some "s1", endedAt2, reason2⟩ now2
        ((endSOS ⟨some "s1", some 5, some "resolved"⟩ 9
          ⟨[("s1", ⟨"s1", "Alice", "active", 0, none, [], none, none,
                    "tok1", 21600000, []⟩)],
            [("tok1", "s1")]⟩).2)).1 = .success) :=
  C7_end_behavior
    ⟨[("s1", ⟨"s1", "Alice", "active", 0, none, [], none, none, "tok1",
              21600000, []⟩)], [("tok1", "s1")]⟩
    "s1" ⟨"s1", "Alice", "active", 0, none, [], none, none, "tok1",
          21600000, []⟩
    (some 5) (some "resolved") 9 (by decide) (by decide)

/-- C10: In every reachable store, every token-index entry resolves to a
stored session (sessions are never deleted), so the read-by-token branch
that resolves a token but misses the session is unreachable. -/
theorem C10_token_index_sound (ops : List Op) :
    (∀ tok i, lookup (runOps initStore ops).tokenToSosId tok = some i →
      (lookup (runOps initStore ops).sessions i).isSome = true) ∧
    (∀ (token : String) (now : Nat),
      readByToken token now (runOps initStore ops) ≠ .sosNotFound) :=
  ⟨reachable_tokenInv ops,
   fun token now =>
     readByToken_no_sosNotFound _ (reachable_tokenInv ops) token now⟩

/-- Witness for C10 at a concrete input. -/
theorem C10_witness :
    (lookup (runOps initStore
        [.start ⟨some "Alice", none, none, some 1000, none⟩ "s1" "tok1"
          500]).sessions "s1").isSome = true ∧
    readByToken "tok1" 5
      (runOps initStore
        [.start ⟨some "Alice", none, none, some 1000, none⟩ "s1" "tok1" 500])
      ≠ .sosNotFound :=
  ⟨(C10_token_index_sound
      [.start ⟨some "Alice", none, none, some 1000, none⟩ "s1" "tok1" 500]).1
      "tok1" "s1" (by decide),
   (C10_token_index_sound
      [.start ⟨some "Alice", none, none, some 1000, none⟩ "s1" "tok1" 500]).2
      "tok1" 5⟩

/-- C4: When the id generator and the token generator never repeat an
output across the start calls of a run (the collision-freeness the code
takes for granted from `uuidv4` and 16 random bytes — it never checks the
store), the session ids returned by the successful starts are pairwise
distinct, and so are the share tokens. -/
theorem C4_unique_issued_ids (ops : List Op)
    (hids : ((startGenPairs ops).map Prod.fst).Pairwise (· ≠ ·))
    (htoks : ((startGenPairs ops).map Prod.snd).Pairwise (· ≠ ·)) :
    ((issuedPairs initStore ops).map Prod.fst).Pairwise (· ≠ ·) ∧
    ((issuedPairs initStore ops).map Prod.snd).Pairwise (· ≠ ·) :=
  ⟨List.Pairwise.sublist
      ((issuedPairs_sublist ops initStore).map Prod.fst) hids,
   List.Pairwise.sublist
      ((issuedPairs_sublist ops initStore).map Prod.snd) htoks⟩

/-- Witness for C4 at a concrete input: two starts and an update. -/
theorem C4_witness :
    ((issuedPairs initStore
        [.start ⟨some "Alice", none, none, some 1000, none⟩ "s1" "t1" 10,
         .update ⟨some "s1", some 3, some 4, none⟩ 15,
         .start ⟨some "Bob", none, none, some 2000, none⟩ "s2" "t2" 20]).map
        Prod.fst).Pairwise (· ≠ ·) ∧
    ((issuedPairs initStore
        [.start ⟨some "Alice", none, none, some 1000, none⟩ "s1" "t1" 10,
         .update ⟨some "s1", some 3, some 4, none⟩ 15,
         .start ⟨some "Bob", none, none, some 2000, none⟩ "s2" "t2" 20]).map
        Prod.snd).Pairwise (· ≠ ·) :=
  C4_unique_issued_ids
    [.start ⟨some "Alice", none, none, some 1000, none⟩ "s1" "t1" 10,
     .update ⟨some "s1", some 3, some 4, none⟩ 15,
     .start ⟨some "Bob", none, none, some 2000, none⟩ "s2" "t2" 20]
    (by decide) (by decide)

/-- C1: After starting a session and running any sequence of update calls
addressed to it, every one of those updates reports success, and the
session's location history is the initial-location record (present iff
both coordinates were supplied at start) followed by the records the
updates appended, in call order; so its length is the number of
successful updates plus 1 when an initial location was present. -/
theorem C1_locationHistory (req : StartReq) (sosId shareToken : String)
    (now : Nat) (st : Store) (us : List UpdCall) (timestamp : Nat)
    (hne : sosId ≠ "")
    (hd : falsyStr req.displayName = false)
    (ht : req.startedAt = some timestamp)
    (hall : ∀ u ∈ us, u.req.sosId = some sosId) :
    resultsFor sosId (startSOS req sosId shareToken now st).store us =
      us.map (fun _ => OpResult.success) ∧
    ∃ s', lookup (runUpdates (startSOS req sosId shareToken now st).store
        us).sessions sosId = some s' ∧
      s'.locationHistory =
        (startLocation req timestamp).toList ++ us.map updCallLoc ∧
      s'.locationHistory.length =
        us.length +
          (if req.latitude.isSome ∧ req.longitude.isSome then 1 else 0) := by
  have hstart := startSOS_ok req sosId shareToken now st timestamp hd ht
  have hlook : lookup (startSOS req sosId shareToken now st).store.sessions
      sosId = some (startSession req sosId shareToken now timestamp) := by
    rw [hstart]
    show lookup (mapSet st.sessions sosId _) sosId = _
    exact lookup_mapSet_self _ _ _
  have hfe : updatesFor sosId us = us := by
    rw [updatesFor, List.filter_eq_self]
    intro u hu
    simpa using hall u hu
  obtain ⟨⟨s', hs', hh⟩, hr⟩ :=
    runUpdates_history sosId hne us
      (startSOS req sosId shareToken now st).store _ hlook
  refine ⟨by rw [hr, hfe], s', hs', ?_, ?_⟩
  · rw [hh, hfe]
    rfl
  · rw [hh, hfe]
    show ((startLocation req timestamp).toList ++ us.map updCallLoc).length
      = _
    rcases hla : req.latitude with _ | la <;>
      rcases hlo : req.longitude with _ | lo <;>
        simp [startLocation, hla, hlo, Nat.add_comm]

/-- Witness for C1 at a concrete input: a start with an initial location
followed by two updates on the session. -/
theorem C1_witness :
    resultsFor "s1"
      (startSOS ⟨some "Alice", some 1, some 2, some 1000, none⟩ "s1" "t1"
        500 initStore).store
      [⟨⟨some "s1", some 3, some 4, some 1100⟩, 1105⟩,
       ⟨⟨some "s1", none, some 6, none⟩, 1200⟩] =
      ([⟨⟨some "s1", some 3, some 4, some 1100⟩, 1105⟩,
        ⟨⟨some "s1", none, some 6, none⟩, 1200⟩] : List UpdCall).map
        (fun _ => OpResult.success) ∧
    ∃ s', lookup (runUpdates
        (startSOS ⟨some "Alice", some 1, some 2, some 1000, none⟩ "s1" "t1"
          500 initStore).store
        [⟨⟨some "s1", some 3, some 4, some 1100⟩, 1105⟩,
         ⟨⟨some "s1", none, some 6, none⟩, 1200⟩]).sessions "s1" = some s' ∧
      s'.locationHistory =
        (startLocation ⟨some "Alice", some 1, some 2, some 1000, none⟩
          1000).toList ++
          ([⟨⟨some "s1", some 3, some 4, some 1100⟩, 1105⟩,
            ⟨⟨some "s1", none, some 6, none⟩, 1200⟩] : List UpdCall).map
            updCallLoc ∧
      s'.locationHistory.length =
        ([⟨⟨some "s1", some 3, some 4, some 1100⟩, 1105⟩,
          ⟨⟨some "s1", none, some 6, none⟩, 1200⟩] : List UpdCall).length +
          (if (some (1 : Rat)).isSome ∧ (some (2 : Rat)).isSome then 1
           else 0) :=
  C1_locationHistory ⟨some "Alice", some 1, some 2, some 1000, none⟩ "s1"
    "t1" 500 initStore
    [⟨⟨some "s1", some 3, some 4, some 1100⟩, 1105⟩,
     ⟨⟨some "s1", none, some 6, none⟩, 1200⟩]
    1000 (by decide) (by decide) rfl (by decide)

end GuardianSOS
